import Mathlib

/-!
Shallow embedding of the consumption-calculation core of
`src/Calculador.py` (a Streamlit cut-list calculator).

Modelling conventions:
* Python strings are `List Char` (the dataframe cells are plain text).
  `str.upper` is modelled on the ASCII letters (the catalog keys and the
  orientation values the program compares against are all ASCII);
  `str.strip` strips the ASCII whitespace characters.
* Pandas float cells are `ℚ`; a missing cell (`NaN`) is `Option.none`
  where a column is numeric-or-missing, and `Val.nan` in the grain
  validator, whose row values can also be non-numeric (`Val.str`).
* A Python expression that may raise `TypeError` (the `>` comparison and
  `max` inside the `try` block of `valida_veta`) is modelled in the
  `Option` monad: `none` is a raised exception, which the enclosing
  `try/except` turns into the `"OK"` result.
* `pd.merge(..., how="left")` is modelled row by row: each piece yields
  one output row per matching catalog entry, in catalog order, or a
  single row with missing format columns when no entry matches.  The
  model corresponds to a pieces table that carries the optional
  `Largo_formato_mm` / `Ancho_formato_mm` override columns, a per-row
  missing override being `none` (the source's other branch, for a table
  without those columns, is this with every override `none`).
-/

namespace Calculador

abbrev Str := List Char

/-- Python whitespace characters stripped by `str.strip` (ASCII part). -/
def isPySpace (c : Char) : Bool :=
  c = ' ' ∨ c = '\t' ∨ c = '\n' ∨ c = '\r' ∨ c = '\x0b' ∨ c = '\x0c'

/-- `str.upper` on one character: `Char.toUpper` is the same code-point
arithmetic Python applies to the ASCII letters (non-ASCII letters are
left unchanged by this model). -/
def pyToUpper (c : Char) : Char := c.toUpper

/-- `str.upper` on a whole string. -/
def pyUpper (s : Str) : Str := s.map pyToUpper

/-- `str.strip()`: drop leading and trailing whitespace. -/
def pyStrip (s : Str) : Str :=
  ((s.dropWhile isPySpace).reverse.dropWhile isPySpace).reverse

/-- `str.replace(" ", "_")` (a one-character pattern, so a map). -/
def pyReplaceSpace (s : Str) : Str :=
  s.map (fun c => if c = ' ' then '_' else c)

/-- `normaliza_material(s) = str(s).strip().upper().replace(" ", "_")`
(src/Calculador.py line 55). -/
def normaliza_material (s : Str) : Str :=
  pyReplaceSpace (pyUpper (pyStrip s))

/-- One row of the `formatos_user` catalog dataframe. -/
structure FormatEntry where
  material_key : Str
  espesor_mm : ℚ
  largo_formato_mm : ℚ
  ancho_formato_mm : ℚ
deriving DecidableEq

/-- One row of the `df_piezas` dataframe (after ingestion), with the
optional per-row format override columns (a missing cell is `none`). -/
structure Piece where
  nombre : Str
  material : Str
  espesor_mm : ℚ
  largo_mm : ℚ
  ancho_mm : ℚ
  cantidad : ℚ
  orientacion_veta : Option Str
  largo_formato_mm : Option ℚ
  ancho_formato_mm : Option ℚ
deriving DecidableEq

/-- One row of `df_merge` after the left join and the `fillna` of the
format columns. -/
structure MergedRow where
  piece : Piece
  material_key : Str
  largo_formato_mm : Option ℚ
  ancho_formato_mm : Option ℚ
deriving DecidableEq

/-- `formatos_user["Material_key"].apply(normaliza_material)`
(src/Calculador.py line 362). -/
def normCatalog (formatos : List FormatEntry) : List FormatEntry :=
  formatos.map fun f => { f with material_key := normaliza_material f.material_key }

/-- The catalog rows a piece joins with: exact equality on the
normalized material key and on the thickness (merge keys of line 365). -/
def catalogMatches (formatos : List FormatEntry) (p : Piece) : List FormatEntry :=
  (normCatalog formatos).filter fun f =>
    decide (f.material_key = normaliza_material p.material ∧ f.espesor_mm = p.espesor_mm)

/-- The `df_merge` rows produced for one piece by
`pd.merge(df_piezas, formatos_user, how="left", ...)` followed by the
`fillna` of lines 375-382: one row per matching catalog entry (the
piece's own override cell wins where present), or a single row with the
format columns untouched when nothing matches. -/
def mergePiece (formatos : List FormatEntry) (p : Piece) : List MergedRow :=
  let key := normaliza_material p.material
  match catalogMatches formatos p with
  | [] => [{ piece := p, material_key := key,
             largo_formato_mm := p.largo_formato_mm,
             ancho_formato_mm := p.ancho_formato_mm }]
  | ms => ms.map fun f =>
      { piece := p, material_key := key,
        largo_formato_mm := some (p.largo_formato_mm.getD f.largo_formato_mm),
        ancho_formato_mm := some (p.ancho_formato_mm.getD f.ancho_formato_mm) }

/-- The whole `df_merge` dataframe: left-join rows in input order. -/
def df_merge (formatos : List FormatEntry) (piezas : List Piece) : List MergedRow :=
  (piezas.map (mergePiece formatos)).flatten

/-- `Area_m2 = Largo_mm * Ancho_mm * Cantidad / 1_000_000`
(src/Calculador.py line 385). -/
def area_m2 (r : MergedRow) : ℚ :=
  r.piece.largo_mm * r.piece.ancho_mm * r.piece.cantidad / 1000000

/-- `Area_plancha_m2 = Largo_formato_mm * Ancho_formato_mm / 1_000_000`
(line 390); a missing factor (`NaN`) propagates to a missing product. -/
def area_plancha_m2 (r : MergedRow) : Option ℚ :=
  match r.largo_formato_mm, r.ancho_formato_mm with
  | some l, some a => some (l * a / 1000000)
  | _, _ => none

/-- A Python cell value as seen by `valida_veta`: a float, `NaN`, or a
non-numeric (string) value. -/
inductive Val where
  | num (q : ℚ)
  | nan
  | str (s : Str)
deriving DecidableEq

/-- `pd.isna` on a cell value. -/
def isna : Val → Bool
  | .nan => true
  | _ => false

/-- Python `>` on two strings (lexicographic by code point). -/
def strGT : Str → Str → Bool
  | [], _ => false
  | _ :: _, [] => true
  | x :: xs, y :: ys => if x = y then strGT xs ys else decide (y < x)

/-- Python `a > b` on two cell values: defined on two floats (`NaN`
compares false) or two strings; a mixed comparison raises `TypeError`,
modelled as `none`. -/
def pyGT : Val → Val → Option Bool
  | .num a, .num b => some (decide (b < a))
  | .num _, .nan => some false
  | .nan, .num _ => some false
  | .nan, .nan => some false
  | .str a, .str b => some (strGT a b)
  | _, _ => none

/-- Python `max(a, b)`: keeps `a` and replaces it by `b` when `b > a`;
`none` when that comparison raises. -/
def pyMax (a b : Val) : Option Val :=
  match pyGT b a with
  | none => none
  | some true => some b
  | some false => some a

/-- The row fields `valida_veta` reads (src/Calculador.py lines 395-400):
a missing `OrientacionVeta` field is `none` (`row.get` then defaults it
to `"LIBRE"`). -/
structure VRow where
  orientacion_veta : Option Str
  largo_mm : Val
  ancho_mm : Val
  largo_formato_mm : Val
  ancho_formato_mm : Val
deriving DecidableEq

def okStr : Str := ("OK").data
def libreStr : Str := ("LIBRE").data
def hStr : Str := ("H").data
def vStr : Str := ("V").data
def msgLargo : Str := ("Largo pieza > largo vetado del formato").data
def msgAncho : Str := ("Ancho pieza > largo vetado del formato").data

/-- The comparison `x > max(Lf, Af)` of lines 407/409, in the `Option`
monad (`none` = a raised exception). -/
def veta_cmp (r : VRow) (x : Val) : Option Bool :=
  (pyMax r.largo_formato_mm r.ancho_formato_mm).bind (pyGT x)

/-- The `try` block of `valida_veta` (lines 406-411), given the
uppercased orientation: the two `if` statements in sequence, with
Python's `and` short-circuit (the comparison only runs when the
orientation matches) and `none` when an evaluated comparison raises. -/
def tryBlock (orient : Str) (r : VRow) : Option Str :=
  match (if orient = hStr then veta_cmp r r.largo_mm else some false) with
  | none => none
  | some true => some msgLargo
  | some false =>
    match (if orient = vStr then veta_cmp r r.ancho_mm else some false) with
    | none => none
    | some true => some msgAncho
    | some false => some okStr

/-- `valida_veta(row)` (src/Calculador.py lines 395-413). -/
def valida_veta (r : VRow) : Str :=
  let orient := pyUpper (r.orientacion_veta.getD libreStr)
  if orient = libreStr ∨ isna r.largo_formato_mm = true ∨ isna r.ancho_formato_mm = true
  then okStr
  else
    match tryBlock orient r with
    | some s => s
    | none => okStr

/-- A missing numeric cell fed to `valida_veta` is `NaN`. -/
def toVal : Option ℚ → Val
  | none => .nan
  | some q => .num q

/-- `df_merge["Check_veta"] = df_merge.apply(valida_veta, axis=1)`
(line 415) on one merged row, whose dimension cells are floats. -/
def check_veta (r : MergedRow) : Str :=
  valida_veta
    { orientacion_veta := r.piece.orientacion_veta
      largo_mm := .num r.piece.largo_mm
      ancho_mm := .num r.piece.ancho_mm
      largo_formato_mm := toVal r.largo_formato_mm
      ancho_formato_mm := toVal r.ancho_formato_mm }

/-- The `groupby` key of the material summary (line 422):
`["Material", "Material_key", "Espesor_mm", "Area_plancha_m2"]` with
`dropna=False`, so a missing sheet area is a key of its own. -/
structure GroupKey where
  material : Str
  material_key : Str
  espesor_mm : ℚ
  area_plancha_m2 : Option ℚ
deriving DecidableEq

def groupKeyOf (r : MergedRow) : GroupKey :=
  { material := r.piece.material
    material_key := r.material_key
    espesor_mm := r.piece.espesor_mm
    area_plancha_m2 := area_plancha_m2 r }

/-- The distinct values of a list, each kept at its first occurrence
(the groups of a pandas `groupby`; pandas additionally sorts the group
keys, an ordering no claim depends on). -/
def firstOccurrences {α : Type} [DecidableEq α] : List α → List α
  | [] => []
  | x :: xs => x :: (firstOccurrences xs).filter (fun y => decide (¬ y = x))

/-- `ceil_div(a, b) = math.ceil(a / b) if b else 0`
(src/Calculador.py line 51); Python truthiness of a float is `b ≠ 0`. -/
def ceil_div (a b : ℚ) : ℤ :=
  if b ≠ 0 then ⌈a / b⌉ else 0

/-- `Planchas_necesarias = ceil_div(Area_m2, Area_plancha_m2) if
Area_plancha_m2 > 0 else 0` (lines 426-429); `NaN > 0` is false, so a
missing sheet area takes the `else 0` branch. -/
def planchas_necesarias (total : ℚ) (plancha : Option ℚ) : ℤ :=
  match plancha with
  | some b => if b > 0 then ceil_div total b else 0
  | none => 0

/-- `Rendimiento_% = Area_m2 / (Planchas_necesarias * Area_plancha_m2)
.replace(0, pd.NA) * 100` (lines 430-433): a zero denominator is
replaced by `NA` and a `NaN` sheet area keeps the denominator `NaN`;
either way the quotient is missing (`none`). -/
def rendimiento_pct (total : ℚ) (planchas : ℤ) (plancha : Option ℚ) : Option ℚ :=
  match plancha with
  | none => none
  | some b =>
    let d := (planchas : ℚ) * b
    if d = 0 then none else some (total / d * 100)

/-- Total piece area of one summary group (the `groupby(...).sum()` of
lines 421-425). -/
def total_area_key (rows : List MergedRow) (k : GroupKey) : ℚ :=
  ((rows.filter fun r => decide (groupKeyOf r = k)).map area_m2).sum

/-- One row of the `resumen` dataframe. -/
structure ResumenRow where
  key : GroupKey
  area_m2 : ℚ
  planchas : ℤ
  rendimiento : Option ℚ
deriving DecidableEq

/-- The material/thickness summary `resumen` (lines 421-433): one row
per distinct group key, with the summed area, the sheet count and the
yield percentage. -/
def resumen (rows : List MergedRow) : List ResumenRow :=
  (firstOccurrences (rows.map groupKeyOf)).map fun k =>
    let t := total_area_key rows k
    let pl := planchas_necesarias t k.area_plancha_m2
    { key := k, area_m2 := t, planchas := pl
      rendimiento := rendimiento_pct t pl k.area_plancha_m2 }

/-- One row of the `df_cantos` dataframe. -/
structure Canto where
  tipo : Str
  longitud_mm : ℚ
  cantidad : ℚ
deriving DecidableEq

/-- `Metros_lineales = Longitud_mm * Cantidad / 1000`
(src/Calculador.py line 450). -/
def metros_lineales (c : Canto) : ℚ :=
  c.longitud_mm * c.cantidad / 1000

/-- `cantos_resumen = df_cantos.groupby("Tipo")["Metros_lineales"].sum()`
(line 451): sum of the linear meters per distinct `Tipo`. -/
def cantos_resumen (cs : List Canto) : List (Str × ℚ) :=
  (firstOccurrences (cs.map Canto.tipo)).map fun t =>
    (t, ((cs.filter fun c => decide (c.tipo = t)).map metros_lineales).sum)

/-- The built-in `formato_default` catalog (src/Calculador.py
lines 134-145). -/
def formato_default : List FormatEntry :=
  [ ⟨("MADECOR_MUF_BLANCO").data, 15, 2440, 1830⟩,
    ⟨("MDF_RH").data, 18, 2440, 1830⟩,
    ⟨("MDF_RH").data, 15, 2440, 1830⟩,
    ⟨("MDF_2_7").data, 27 / 10, 2440, 1830⟩,
    ⟨("MDF_UNICOR_MUF_NEVADO").data, 18, 2440, 1830⟩,
    ⟨("MADEFONDO_MUF_BLANCO").data, 11 / 2, 2440, 1830⟩,
    ⟨("FORMICA_BLANCA_NIEVE_2102").data, 4 / 5, 2440, 1220⟩,
    ⟨("FORMICA_FASHION_WHITE_IT_2125").data, 4 / 5, 2440, 1220⟩ ]

/-- A lowercase ASCII letter, by code point. -/
def isLowerAscii (c : Char) : Prop := 97 ≤ c.toNat ∧ c.toNat ≤ 122

instance (c : Char) : Decidable (isLowerAscii c) := by
  unfold isLowerAscii; infer_instance

theorem toNat_ofNat_valid (n : Nat) (h : n.isValidChar) : (Char.ofNat n).toNat = n := by
  rw [Char.ofNat, dif_pos h]
  rfl

theorem pyToUpper_def (c : Char) :
    pyToUpper c = if isLowerAscii c then Char.ofNat (c.toNat - 32) else c := by
  unfold pyToUpper Char.toUpper isLowerAscii
  rfl

theorem pyToUpper_toNat_of_lower {c : Char} (h : isLowerAscii c) :
    (pyToUpper c).toNat = c.toNat - 32 := by
  rw [pyToUpper_def, if_pos h]
  exact toNat_ofNat_valid _ (Or.inl (by unfold isLowerAscii at h; omega))

theorem pyToUpper_eq_of_not_lower {c : Char} (h : ¬ isLowerAscii c) :
    pyToUpper c = c := by
  rw [pyToUpper_def, if_neg h]

theorem pyToUpper_not_lower (c : Char) : ¬ isLowerAscii (pyToUpper c) := by
  by_cases h : isLowerAscii c
  · have ht := pyToUpper_toNat_of_lower h
    unfold isLowerAscii at h ⊢
    omega
  · rw [pyToUpper_eq_of_not_lower h]
    exact h

theorem pyToUpper_idem (c : Char) : pyToUpper (pyToUpper c) = pyToUpper c :=
  pyToUpper_eq_of_not_lower (pyToUpper_not_lower c)

theorem pyUpper_idem (s : Str) : pyUpper (pyUpper s) = pyUpper s := by
  simp [pyUpper, List.map_map, Function.comp_def, pyToUpper_idem]

theorem mem_firstOccurrences {α : Type} [DecidableEq α] (a : α) :
    ∀ l : List α, a ∈ firstOccurrences l ↔ a ∈ l := by
  intro l
  induction l with
  | nil => simp [firstOccurrences]
  | cons x xs ih =>
    by_cases h : a = x <;> simp [firstOccurrences, List.mem_filter, ih, h]

/-- C8: `normaliza_material` is a total function on strings (it is a
Lean `def`, so it cannot fail); on a whitespace-only input it returns
the empty string, and every character of its output is neither a space
(internal spaces were replaced by underscores) nor a lowercase ASCII
letter (letters were uppercased). -/
theorem normaliza_material_spec (s : Str) :
    (s.all isPySpace = true → normaliza_material s = [])
    ∧ ∀ c ∈ normaliza_material s, c ≠ ' ' ∧ ¬ isLowerAscii c := by
  constructor
  · intro hall
    have h1 : s.dropWhile isPySpace = [] := by
      rw [List.dropWhile_eq_nil_iff]
      intro x hx
      exact (List.all_eq_true.mp hall) x hx
    simp [normaliza_material, pyStrip, pyUpper, pyReplaceSpace, h1]
  · intro c hc
    simp only [normaliza_material, pyReplaceSpace, pyUpper, List.map_map,
      List.mem_map, Function.comp_def] at hc
    obtain ⟨x, -, rfl⟩ := hc
    by_cases hy : pyToUpper x = ' '
    · rw [hy]
      refine ⟨by decide, by decide⟩
    · rw [if_neg hy]
      exact ⟨hy, pyToUpper_not_lower x⟩

/-- Witness for C8 at concrete inputs: a whitespace-only string
normalizes to the empty string, and `'M'`, a character of
`normaliza_material "mdf rh"`, is neither a space nor lowercase. -/
theorem normaliza_material_spec_witness :
    normaliza_material (("  ").data) = []
    ∧ ('M' ≠ ' ' ∧ ¬ isLowerAscii 'M') :=
  ⟨(normaliza_material_spec (("  ").data)).1 (by decide),
   (normaliza_material_spec (("mdf rh").data)).2 'M' (by decide)⟩

/-- C1: every `df_merge` row of a piece keeps the piece's explicit
`Largo_formato_mm` / `Ancho_formato_mm` overrides untouched, whatever
the catalog holds; for a piece without overrides the resolved format is
the format of a catalog entry that matches `(normaliza_material
Material, Espesor_mm)` exactly, and both resolved dimensions are
missing when no entry matches exactly. -/
theorem resolver_override_and_lookup (fmts : List FormatEntry) (p : Piece)
    (r : MergedRow) (hr : r ∈ mergePiece fmts p) :
    (∀ v, p.largo_formato_mm = some v → r.largo_formato_mm = some v)
    ∧ (∀ v, p.ancho_formato_mm = some v → r.ancho_formato_mm = some v)
    ∧ (p.largo_formato_mm = none → p.ancho_formato_mm = none →
        (∃ f ∈ normCatalog fmts,
            f.material_key = normaliza_material p.material
            ∧ f.espesor_mm = p.espesor_mm
            ∧ r.largo_formato_mm = some f.largo_formato_mm
            ∧ r.ancho_formato_mm = some f.ancho_formato_mm)
        ∨ ((¬ ∃ f ∈ normCatalog fmts,
              f.material_key = normaliza_material p.material
              ∧ f.espesor_mm = p.espesor_mm)
           ∧ r.largo_formato_mm = none ∧ r.ancho_formato_mm = none)) := by
  cases hm : catalogMatches fmts p with
  | nil =>
    rw [mergePiece, hm] at hr
    simp only [List.mem_singleton] at hr
    subst hr
    refine ⟨fun v hv => hv, fun v hv => hv, fun hl ha => Or.inr ⟨?_, hl, ha⟩⟩
    rintro ⟨f, hf, hkey, hesp⟩
    have := List.filter_eq_nil_iff.mp hm f hf
    simp [hkey, hesp] at this
  | cons m ms =>
    rw [mergePiece, hm] at hr
    simp only [List.mem_map] at hr
    obtain ⟨f, hfmem, rfl⟩ := hr
    have hf : f ∈ catalogMatches fmts p := by rw [hm]; exact hfmem
    have hfil := List.mem_filter.mp hf
    have hprop := of_decide_eq_true hfil.2
    refine ⟨fun v hv => by simp [hv], fun v hv => by simp [hv], fun hl ha => ?_⟩
    exact Or.inl ⟨f, hfil.1, hprop.1, hprop.2, by simp [hl], by simp [ha]⟩

/-- Witness for C1: the override `(9, 8)` of a concrete piece survives
resolution against a catalog whose matching entry says `(2, 1)`. -/
theorem resolver_override_and_lookup_witness :
    ({ piece := ⟨['p'], ['m'], 18, 3, 1, 2, none, some 9, some 8⟩,
       material_key := ("M").data,
       largo_formato_mm := some 9, ancho_formato_mm := some 8 } : MergedRow).largo_formato_mm
      = some 9 :=
  (resolver_override_and_lookup [⟨("M").data, 18, 2, 1⟩]
      ⟨['p'], ['m'], 18, 3, 1, 2, none, some 9, some 8⟩ _ (by decide)).1 9 rfl

/-- Counterexample for C2: a catalog with a duplicate
`(Material_key, Espesor_mm)` entry makes the left join emit two output
rows for a single input piece, so resolution does not always produce
exactly one row per piece. -/
theorem df_merge_one_row_per_piece_counterexample :
    (df_merge
        [⟨("M").data, 18, 2, 1⟩, ⟨("M").data, 18, 2, 1⟩]
        [⟨['p'], ['m'], 18, 3, 1, 2, none, none, none⟩]).length = 2 := by
  decide

/-- C2 (amended): when the catalog holds at most one entry per
`(Material_key, Espesor_mm)` pair, resolution produces exactly one
output row per input piece, in input order, never dropping, duplicating
or merging rows. -/
theorem df_merge_one_row_per_piece (fmts : List FormatEntry) (ps : List Piece)
    (huniq : (normCatalog fmts).Pairwise
      (fun f g => ¬ (f.material_key = g.material_key ∧ f.espesor_mm = g.espesor_mm))) :
    (df_merge fmts ps).map MergedRow.piece = ps := by
  induction ps with
  | nil => rfl
  | cons p ps ih =>
    have hsingle : (mergePiece fmts p).map MergedRow.piece = [p] := by
      cases hm : catalogMatches fmts p with
      | nil => rw [mergePiece, hm]; rfl
      | cons f fs =>
        cases fs with
        | nil => rw [mergePiece, hm]; rfl
        | cons g gs =>
          exfalso
          have hpw : (catalogMatches fmts p).Pairwise
              (fun f g => ¬ (f.material_key = g.material_key ∧ f.espesor_mm = g.espesor_mm)) :=
            huniq.filter _
          rw [hm] at hpw
          have hrel := (List.pairwise_cons.mp hpw).1 g (by simp)
          have hf : f ∈ catalogMatches fmts p := by rw [hm]; simp
          have hg : g ∈ catalogMatches fmts p := by rw [hm]; simp
          have hfp := of_decide_eq_true (List.mem_filter.mp hf).2
          have hgp := of_decide_eq_true (List.mem_filter.mp hg).2
          exact hrel ⟨hfp.1.trans hgp.1.symm, hfp.2.trans hgp.2.symm⟩
    have hstep : df_merge fmts (p :: ps) = mergePiece fmts p ++ df_merge fmts ps := by
      simp [df_merge]
    rw [hstep, List.map_append, hsingle, ih]
    rfl

/-- Witness for the amended C2: a duplicate-free two-entry catalog and
two concrete pieces (one matching, one unresolvable) come back as
exactly those two pieces, in order. -/
theorem df_merge_one_row_per_piece_witness :
    (df_merge [⟨("M").data, 18, 2, 1⟩, ⟨("M").data, 15, 2, 1⟩]
        [⟨['p'], ['m'], 18, 3, 1, 2, none, none, none⟩,
         ⟨['q'], ['x'], 9, 4, 2, 1, none, none, none⟩]).map MergedRow.piece
      = [⟨['p'], ['m'], 18, 3, 1, 2, none, none, none⟩,
         ⟨['q'], ['x'], 9, 4, 2, 1, none, none, none⟩] :=
  df_merge_one_row_per_piece _ _ (by decide)

/-- C4: with a positive sheet area the sheet count is the ceiling of
`TotalAreaM2 / SheetAreaM2` (so an exact fit gives 1 sheet, the counted
sheets always cover the total area, and one sheet fewer never would);
with a zero or negative sheet area, or a missing one, the count is 0,
and `ceil_div` itself guards against a zero divisor. -/
theorem planchas_necesarias_spec (total b : ℚ) :
    (b > 0 → planchas_necesarias total (some b) = ⌈total / b⌉)
    ∧ (b > 0 → total = b → planchas_necesarias total (some b) = 1)
    ∧ (b > 0 → total ≤ (planchas_necesarias total (some b) : ℚ) * b)
    ∧ (b > 0 → 0 < total → ((planchas_necesarias total (some b) : ℚ) - 1) * b < total)
    ∧ (b ≤ 0 → planchas_necesarias total (some b) = 0)
    ∧ planchas_necesarias total none = 0
    ∧ ceil_div total 0 = 0 := by
  have hpos : ∀ hb : b > 0, planchas_necesarias total (some b) = ⌈total / b⌉ := by
    intro hb
    simp [planchas_necesarias, ceil_div, hb, ne_of_gt hb]
  refine ⟨hpos, ?_, ?_, ?_, ?_, rfl, by simp [ceil_div]⟩
  · intro hb heq
    rw [hpos hb, heq, div_self (ne_of_gt hb)]
    exact Int.ceil_one
  · intro hb
    rw [hpos hb, ← div_le_iff₀ hb]
    exact Int.le_ceil _
  · intro hb hpos2
    rw [hpos hb]
    have h1 : (⌈total / b⌉ : ℚ) - 1 < total / b := by
      have := Int.ceil_lt_add_one (total / b)
      push_cast at this ⊢
      linarith
    calc ((⌈total / b⌉ : ℚ) - 1) * b < (total / b) * b := by
          exact mul_lt_mul_of_pos_right h1 hb
      _ = total := by field_simp
  · intro hb
    simp [planchas_necesarias, not_lt.mpr hb]

/-- Witness for C4: 1.01 sheets round up to 2, an exact fit gives 1,
and a negative or missing sheet area gives 0. -/
theorem planchas_necesarias_spec_witness :
    planchas_necesarias (101 / 100) (some 1) = 2
    ∧ planchas_necesarias 5 (some 5) = 1
    ∧ planchas_necesarias 3 (some (-2)) = 0
    ∧ planchas_necesarias 3 none = 0 := by
  refine ⟨?_, ?_, ?_, ?_⟩
  · rw [(planchas_necesarias_spec (101 / 100) 1).1 (by norm_num)]
    norm_num
    rw [show ((101 : ℚ) / 100) = 1.01 by norm_num]
    norm_num [Int.ceil_eq_iff]
  · exact (planchas_necesarias_spec 5 5).2.1 (by norm_num) rfl
  · exact (planchas_necesarias_spec 3 (-2)).2.2.2.2.1 (by norm_num)
  · exact (planchas_necesarias_spec 3 (-2)).2.2.2.2.2.1


/-- C5: a piece's `Area_m2` is `Largo_mm * Ancho_mm * Cantidad /
1_000_000` (total over all copies: scaling `Cantidad` scales the area),
`Area_plancha_m2` is `Largo_formato_mm * Ancho_formato_mm / 1_000_000`
when both resolved dimensions are present and missing otherwise, and a
missing sheet area propagates to a summary group keyed by a missing
sheet area. -/
theorem areas_spec (r : MergedRow) :
    (area_m2 r = r.piece.largo_mm * r.piece.ancho_mm * r.piece.cantidad / 1000000)
    ∧ (∀ q : ℚ,
        area_m2 { r with piece := { r.piece with cantidad := q * r.piece.cantidad } }
          = q * area_m2 r)
    ∧ (∀ lf af, r.largo_formato_mm = some lf → r.ancho_formato_mm = some af →
        area_plancha_m2 r = some (lf * af / 1000000))
    ∧ (r.largo_formato_mm = none ∨ r.ancho_formato_mm = none → area_plancha_m2 r = none)
    ∧ (∀ rows, r ∈ rows → area_plancha_m2 r = none →
        ∃ row ∈ resumen rows, row.key.area_plancha_m2 = none) := by
  refine ⟨rfl, ?_, ?_, ?_, ?_⟩
  · intro q
    simp only [area_m2]
    ring
  · intro lf af hlf haf
    simp [area_plancha_m2, hlf, haf]
  · intro h
    rcases h with h | h <;> simp [area_plancha_m2, h]
  · intro rows hmem hnone
    refine ⟨_, List.mem_map.mpr ⟨groupKeyOf r, ?_, rfl⟩, ?_⟩
    · rw [mem_firstOccurrences]
      exact List.mem_map.mpr ⟨r, hmem, rfl⟩
    · simpa [groupKeyOf] using hnone

/-- Witness for C5 at concrete rows: a resolved row's areas, and an
unresolved row producing an unresolved-format summary group. -/
theorem areas_spec_witness :
    area_m2 (MergedRow.mk ⟨['p'], ['m'], 18, 3, 1, 2, none, none, none⟩ ['M'] (some 2) (some 1))
        = 3 * 1 * 2 / 1000000
    ∧ area_plancha_m2
        (MergedRow.mk ⟨['p'], ['m'], 18, 3, 1, 2, none, none, none⟩ ['M'] (some 2) (some 1))
        = some (2 * 1 / 1000000)
    ∧ ∃ row ∈ resumen
        [MergedRow.mk ⟨['q'], ['x'], 9, 1000, 1000, 1, none, none, none⟩ ['X'] none none],
        row.key.area_plancha_m2 = none :=
  ⟨(areas_spec _).1,
   (areas_spec _).2.2.1 2 1 rfl rfl,
   (areas_spec _).2.2.2.2 _ (List.mem_singleton.mpr rfl) rfl⟩

/-- C6: for every summary row, `Rendimiento_%` equals
`Area_m2 / (Planchas_necesarias * Area_plancha_m2) * 100` when that
denominator is nonzero, and is missing (not zero, not an error) when the
sheet area is missing, when the denominator is zero, and in particular
whenever `Planchas_necesarias = 0`. -/
theorem rendimiento_spec (rows : List MergedRow) (row : ResumenRow)
    (hrow : row ∈ resumen rows) :
    (∀ b, row.key.area_plancha_m2 = some b → (row.planchas : ℚ) * b ≠ 0 →
        row.rendimiento = some (row.area_m2 / ((row.planchas : ℚ) * b) * 100))
    ∧ (row.key.area_plancha_m2 = none → row.rendimiento = none)
    ∧ (∀ b, row.key.area_plancha_m2 = some b → (row.planchas : ℚ) * b = 0 →
        row.rendimiento = none)
    ∧ (row.planchas = 0 → row.rendimiento = none) := by
  simp only [resumen, List.mem_map] at hrow
  obtain ⟨k, -, rfl⟩ := hrow
  refine ⟨?_, ?_, ?_, ?_⟩
  · intro b hb hne
    have hb' : k.area_plancha_m2 = some b := hb
    have hne' : ((planchas_necesarias (total_area_key rows k) k.area_plancha_m2 : ℚ) * b) ≠ 0 :=
      hne
    show rendimiento_pct (total_area_key rows k)
        (planchas_necesarias (total_area_key rows k) k.area_plancha_m2) k.area_plancha_m2
      = some (total_area_key rows k /
          ((planchas_necesarias (total_area_key rows k) k.area_plancha_m2 : ℚ) * b) * 100)
    rw [hb'] at hne' ⊢
    simp only [rendimiento_pct]
    rw [if_neg hne']
  · intro hb
    have hb' : k.area_plancha_m2 = none := hb
    show rendimiento_pct (total_area_key rows k)
        (planchas_necesarias (total_area_key rows k) k.area_plancha_m2) k.area_plancha_m2 = none
    rw [hb']
    rfl
  · intro b hb hzero
    have hb' : k.area_plancha_m2 = some b := hb
    have hzero' : ((planchas_necesarias (total_area_key rows k) k.area_plancha_m2 : ℚ) * b) = 0 :=
      hzero
    show rendimiento_pct (total_area_key rows k)
        (planchas_necesarias (total_area_key rows k) k.area_plancha_m2) k.area_plancha_m2 = none
    rw [hb'] at hzero' ⊢
    simp only [rendimiento_pct]
    rw [if_pos hzero']
  · intro hpl
    have hpl' : planchas_necesarias (total_area_key rows k) k.area_plancha_m2 = 0 := hpl
    show rendimiento_pct (total_area_key rows k)
        (planchas_necesarias (total_area_key rows k) k.area_plancha_m2) k.area_plancha_m2 = none
    cases hb : k.area_plancha_m2 with
    | none => rfl
    | some b =>
      rw [hb] at hpl'
      simp only [rendimiento_pct]
      rw [if_pos (by rw [hpl']; simp)]

/-- Witness for C6: an unresolved-format group reports a missing yield,
and a fully resolved group reports the quotient formula. -/
theorem rendimiento_spec_witness :
    (ResumenRow.mk ⟨['x'], ['X'], 9, none⟩ 1 0 none).rendimiento = none
    ∧ (ResumenRow.mk ⟨['m'], ['M'], 18, some (1 / 500000)⟩ 1 500000
        (some 100)).rendimiento = some (1 / ((500000 : ℚ) * (1 / 500000)) * 100) :=
  ⟨(rendimiento_spec
      [MergedRow.mk ⟨['q'], ['x'], 9, 1000, 1000, 1, none, none, none⟩ ['X'] none none]
      _ (by
        norm_num [resumen, firstOccurrences, groupKeyOf, area_plancha_m2, total_area_key,
          area_m2, planchas_necesarias, rendimiento_pct])).2.1 rfl,
   (rendimiento_spec
      [MergedRow.mk ⟨['n'], ['m'], 18, 1000, 1000, 1, none, none, none⟩ ['M'] (some 2) (some 1)]
      _ (by
        norm_num [resumen, firstOccurrences, groupKeyOf, area_plancha_m2, total_area_key,
          area_m2, planchas_necesarias, rendimiento_pct, ceil_div])).1 (1 / 500000) rfl
      (by norm_num)⟩

/-- `max(a, b)` of two Python floats is the usual maximum. -/
theorem pyMax_num (lf af : ℚ) :
    pyMax (Val.num lf) (Val.num af) = some (Val.num (max lf af)) := by
  simp only [pyMax, pyGT]
  by_cases h : lf < af
  · simp [h, max_eq_right h.le]
  · simp [h, max_eq_left (not_lt.mp h)]

/-- Case analysis on the outcome of the `try` block: an exception, or
one of the three result strings. -/
theorem tryBlock_cases (o : Str) (r : VRow) :
    tryBlock o r = none ∨ tryBlock o r = some okStr
    ∨ tryBlock o r = some msgLargo ∨ tryBlock o r = some msgAncho := by
  rw [tryBlock]
  rcases hh : (if o = hStr then veta_cmp r r.largo_mm else some false) with - | bh
  · simp
  · rcases bh with - | -
    · rcases hv : (if o = vStr then veta_cmp r r.ancho_mm else some false) with - | bv
      · simp
      · rcases bv with - | - <;> simp
    · simp

/-- C9: `valida_veta` is total: every row gets one of the three result
strings; a missing `OrientacionVeta` field (defaulted to `"LIBRE"`), or
any uppercased orientation other than `"H"`/`"V"`, yields `"OK"`; and a
raised comparison (`tryBlock ... = none`, the modelled `TypeError`) is
caught and also yields `"OK"`. -/
theorem valida_veta_total (r : VRow) :
    (valida_veta r = okStr ∨ valida_veta r = msgLargo ∨ valida_veta r = msgAncho)
    ∧ (r.orientacion_veta = none → valida_veta r = okStr)
    ∧ (pyUpper (r.orientacion_veta.getD libreStr) ≠ hStr →
       pyUpper (r.orientacion_veta.getD libreStr) ≠ vStr →
       valida_veta r = okStr)
    ∧ (tryBlock (pyUpper (r.orientacion_veta.getD libreStr)) r = none →
       valida_veta r = okStr) := by
  refine ⟨?_, ?_, ?_, ?_⟩
  · rw [valida_veta]
    split
    · exact Or.inl rfl
    · rcases tryBlock_cases (pyUpper (r.orientacion_veta.getD libreStr)) r with h | h | h | h <;>
        simp [h]
  · intro hnone
    rw [valida_veta, hnone]
    have : pyUpper libreStr = libreStr := by decide
    simp [this]
  · intro hh hv
    rw [valida_veta]
    split
    · rfl
    · rw [tryBlock, if_neg hh, if_neg hv]
  · intro hnone
    rw [valida_veta]
    split
    · rfl
    · rw [hnone]

/-- Witness for C9: a row with no orientation field, a row with the
out-of-enum orientation `"X"`, and a row whose format cell holds the
string `"a"` (whose comparison raises) all come back `"OK"`. -/
theorem valida_veta_total_witness :
    valida_veta ⟨none, .num 1, .num 1, .num 2, .num 2⟩ = okStr
    ∧ valida_veta ⟨some (("X")).data, .num 1, .num 1, .num 2, .num 2⟩ = okStr
    ∧ valida_veta ⟨some (("H")).data, .num 1, .num 1, .str ['a'], .num 2⟩ = okStr :=
  ⟨(valida_veta_total _).2.1 rfl,
   (valida_veta_total _).2.2.1 (by decide) (by decide),
   (valida_veta_total _).2.2.2 (by decide)⟩

/-- C10: the grain-check result of a row does not change when its
orientation string is replaced by its uppercased form, because
`valida_veta` uppercases the orientation before comparing. -/
theorem valida_veta_case_insensitive (r : VRow) (o : Str) :
    valida_veta { r with orientacion_veta := some o }
      = valida_veta { r with orientacion_veta := some (pyUpper o) } := by
  simp only [valida_veta, Option.getD_some, pyUpper_idem]
  rfl

/-- C3: per merged row, `"LIBRE"` orientation or an unresolved format
dimension gives `"OK"`; with both dimensions resolved, orientation `"H"`
fails with the length message exactly when `Largo_mm > max(Lf, Af)`,
orientation `"V"` fails with the width message exactly when
`Ancho_mm > max(Lf, Af)`, and any other orientation gives `"OK"`. -/
theorem check_veta_spec (r : MergedRow) :
    (pyUpper (r.piece.orientacion_veta.getD libreStr) = libreStr
       ∨ r.largo_formato_mm = none ∨ r.ancho_formato_mm = none →
       check_veta r = okStr)
    ∧ (∀ lf af, r.largo_formato_mm = some lf → r.ancho_formato_mm = some af →
        (pyUpper (r.piece.orientacion_veta.getD libreStr) = hStr →
          check_veta r
            = if max lf af < r.piece.largo_mm then msgLargo else okStr)
        ∧ (pyUpper (r.piece.orientacion_veta.getD libreStr) = vStr →
          check_veta r
            = if max lf af < r.piece.ancho_mm then msgAncho else okStr)
        ∧ (pyUpper (r.piece.orientacion_veta.getD libreStr) ≠ libreStr →
           pyUpper (r.piece.orientacion_veta.getD libreStr) ≠ hStr →
           pyUpper (r.piece.orientacion_veta.getD libreStr) ≠ vStr →
           check_veta r = okStr)) := by
  constructor
  · intro h
    rcases h with horient | hlf | haf
    · simp only [check_veta, valida_veta]
      rw [if_pos (Or.inl horient)]
    · simp [check_veta, valida_veta, hlf, toVal, isna]
    · simp [check_veta, valida_veta, haf, toVal, isna]
  · intro lf af hlf haf
    refine ⟨?_, ?_, ?_⟩
    · intro horient
      have hne : pyUpper (r.piece.orientacion_veta.getD libreStr) ≠ libreStr := by
        rw [horient]; decide
      simp only [check_veta, valida_veta, hlf, haf, toVal, isna]
      rw [if_neg (by simp [hne]), horient]
      rw [tryBlock, if_pos rfl]
      simp only [veta_cmp, pyMax_num, Option.bind_some, pyGT]
      by_cases hlt : max lf af < r.piece.largo_mm
      · simp [hlt]
      · simp +decide [hlt]
    · intro horient
      have hne : pyUpper (r.piece.orientacion_veta.getD libreStr) ≠ libreStr := by
        rw [horient]; decide
      simp only [check_veta, valida_veta, hlf, haf, toVal, isna]
      rw [if_neg (by simp [hne]), horient]
      rw [tryBlock, if_neg (by decide), if_pos rfl]
      simp only [veta_cmp, pyMax_num, Option.bind_some, pyGT]
      by_cases hlt : max lf af < r.piece.ancho_mm
      · simp [hlt]
      · simp [hlt]
    · intro hnl hnh hnv
      simp only [check_veta, valida_veta, hlf, haf, toVal, isna]
      rw [if_neg (by simp [hnl])]
      rw [tryBlock, if_neg hnh, if_neg hnv]

/-- Witness for C3: a piece of length 3 with grain `"h"` on a resolved
2 by 1 format exceeds `max(2, 1)` and is flagged with the length
message. -/
theorem check_veta_spec_witness :
    check_veta (MergedRow.mk ⟨['p'], ['m'], 18, 3, 1, 2, some ['h'], none, none⟩
        ['M'] (some 2) (some 1)) = msgLargo := by
  have h := ((check_veta_spec (MergedRow.mk ⟨['p'], ['m'], 18, 3, 1, 2, some ['h'], none, none⟩
      ['M'] (some 2) (some 1))).2 2 1 rfl rfl).1 (by decide)
  rw [h]
  decide

/-- C7: each edge-band row contributes
`Metros_lineales = Longitud_mm * Cantidad / 1000`; the summary has one
row per distinct `Tipo` holding the sum of its rows' linear meters; and
the rows `("A",1000,2), ("A",500,1), ("B",2000,1)` summarize to
`("A", 2.5), ("B", 2)`. -/
theorem cantos_resumen_spec (cs : List Canto) :
    (∀ c ∈ cs, metros_lineales c = c.longitud_mm * c.cantidad / 1000)
    ∧ (∀ t total, (t, total) ∈ cantos_resumen cs ↔
        (t ∈ cs.map Canto.tipo
         ∧ total = ((cs.filter fun c => decide (c.tipo = t)).map metros_lineales).sum))
    ∧ cantos_resumen
        [⟨("A").data, 1000, 2⟩, ⟨("A").data, 500, 1⟩, ⟨("B").data, 2000, 1⟩]
        = [((("A")).data, 5 / 2), ((("B")).data, 2)] := by
  refine ⟨fun c hc => rfl, ?_, ?_⟩
  · intro t total
    constructor
    · intro hmem
      simp only [cantos_resumen, List.mem_map] at hmem
      obtain ⟨t2, ht2, heq⟩ := hmem
      obtain ⟨rfl, rfl⟩ := Prod.mk.injEq .. |>.mp heq
      exact ⟨(mem_firstOccurrences t2 _).mp ht2, rfl⟩
    · rintro ⟨htmem, rfl⟩
      exact List.mem_map.mpr ⟨t, (mem_firstOccurrences t _).mpr htmem, rfl⟩
  · simp +decide [cantos_resumen, firstOccurrences, metros_lineales]
    norm_num

/-- Witness for C7 at concrete inputs: one row's meters, and the
`("B", 2)` summary row of the example. -/
theorem cantos_resumen_spec_witness :
    metros_lineales ⟨("A").data, 1000, 2⟩ = 1000 * 2 / 1000
    ∧ (("B").data, (2 : ℚ)) ∈ cantos_resumen
        [⟨("A").data, 1000, 2⟩, ⟨("A").data, 500, 1⟩, ⟨("B").data, 2000, 1⟩] :=
  ⟨(cantos_resumen_spec [⟨("A").data, 1000, 2⟩]).1 _ (by decide),
   ((cantos_resumen_spec _).2.1 (("B")).data 2).mpr
     ⟨by decide, by simp +decide [metros_lineales]; norm_num⟩⟩

end Calculador
